import Mathlib

/-!
Verification of the PROSE model wrappers
(`src/models/transformer_wrappers.py`: classes `PROSE_Fluids` and
`PROSE_1DPDE`).

The wrapper file composes sub-modules (embedder, data encoder, symbol
encoder, fusion, operator decoder) that live outside this repository
snapshot; following the spec, each sub-module is modelled as a
deterministic function on shape-carrying tensors.  A tensor is modelled
by its shape together with an integer "payload" digest standing for its
numeric contents; every modelled sub-module combines payloads through an
injective-enough arithmetic so that data dependence and independence are
visible.  The wrapper methods `forward`, `fwd` and `generate` are
translated line by line from the source, including the tuple-unpacking
of `data_input.size()` (which raises when the rank is wrong), the
keyword-argument binding of `forward(mode, **kwargs)` (required
arguments, optional `symbol_padding_mask` defaulting to `None`), the
dispatch on `mode`, and the dictionary result of `PROSE_1DPDE.fwd`.
Each `fwd` additionally returns the list of sub-module stages it
invoked, in order, so that call-order claims can be stated.
-/

/-- A tensor of the host framework, modelled by its shape and a payload
digest standing for its numeric contents. -/
structure Tensor where
  shape : List Nat
  payload : Int
deriving DecidableEq, Repr

/-- Python exception outcomes relevant to the wrappers: `exception` is an
explicit `raise Exception(msg)` in the wrapper code, `typeError` is the
interpreter rejecting a call with missing required arguments, and
`valueError` is a failed tuple unpacking such as
`bs, input_len, x_num, _, data_dim = data_input.size()`. -/
inductive PyError where
  | exception (msg : String)
  | typeError (msg : String)
  | valueError (msg : String)
deriving DecidableEq, Repr

/-- The value a wrapper forward pass returns: `PROSE_Fluids.fwd` returns
the output tensor itself, `PROSE_1DPDE.fwd` returns a dictionary
(modelled as an association list in insertion order). -/
inductive FwdResult where
  | tensor (t : Tensor)
  | dict (d : List (String × Tensor))
deriving DecidableEq, Repr

/-- The sub-module invocations a forward pass can perform, used to record
the order of pipeline stages. -/
inductive Stage where
  | embedderEncode
  | dataEncoder
  | symbolEncoder
  | fusionStage
  | getQueryEmb
  | dataDecoder
  | embedderDecode
deriving DecidableEq, Repr

/-- Modelled from the spec: `LinearEmbedder` (module `embedder`, not in
this snapshot).  It is constructed from the config hidden dimension, the
spatial grid size `x_num`, the channel count and the patch count, and
"projects raw spatiotemporal field samples plus time stamps into a
latent vector sequence; inverse-projects latent decoder outputs back to
field values". -/
structure LinearEmbedder where
  xNum : Nat
  dataDim : Nat
  patchNum : Nat
  dim : Nat
deriving DecidableEq, Repr

/-- Modelled from the spec: `LinearEmbedder.encode` maps a 2D field
tensor `(bs, input_len, x_num, x_num, data_dim)` with times
`(bs, input_len, 1)` to a latent sequence `(bs, data_len, dim)` with
`data_len = input_len * patch_num * patch_num` (shape documented in the
source comments of `PROSE_Fluids.fwd`). -/
def LinearEmbedder.encode (e : LinearEmbedder) (data_input input_times : Tensor) : Tensor :=
  { shape := [data_input.shape.headD 0,
              data_input.shape.getD 1 0 * e.patchNum * e.patchNum, e.dim]
    payload := 2 * data_input.payload + 3 * input_times.payload + 1 }

/-- Modelled from the spec: `LinearEmbedder.decode` inverse-projects a
latent sequence `(bs, query_len, dim)` back to field values
`(bs, query_len, x_num, x_num, data_dim)`. -/
def LinearEmbedder.decode (e : LinearEmbedder) (x : Tensor) : Tensor :=
  { shape := [x.shape.headD 0, x.shape.getD 1 0, e.xNum, e.xNum, e.dataDim]
    payload := 7 * x.payload + 3 }

/-- Modelled from the spec: `LinearEmbedder_1DPDE` (module `embedder`,
not in this snapshot), the 1D counterpart of `LinearEmbedder`. -/
structure LinearEmbedder_1DPDE where
  xNum : Nat
  dataDim : Nat
  patchNum : Nat
  dim : Nat
deriving DecidableEq, Repr

/-- Modelled from the spec: `LinearEmbedder_1DPDE.encode` maps a 1D
field tensor `(bs, input_len, x_num, data_dim)` with times
`(bs, input_len, 1)` to a latent sequence `(bs, data_len, dim)` with
`data_len = input_len * patch_num` (shape documented in the source
comments of `PROSE_1DPDE.fwd`). -/
def LinearEmbedder_1DPDE.encode (e : LinearEmbedder_1DPDE)
    (data_input input_times : Tensor) : Tensor :=
  { shape := [data_input.shape.headD 0,
              data_input.shape.getD 1 0 * e.patchNum, e.dim]
    payload := 2 * data_input.payload + 3 * input_times.payload + 1 }

/-- Modelled from the spec: `LinearEmbedder_1DPDE.decode` inverse-projects
a latent sequence `(bs, query_len, dim)` back to 1D field values
`(bs, query_len, x_num, data_dim)`. -/
def LinearEmbedder_1DPDE.decode (e : LinearEmbedder_1DPDE) (x : Tensor) : Tensor :=
  { shape := [x.shape.headD 0, x.shape.getD 1 0, e.xNum, e.dataDim]
    payload := 7 * x.payload + 3 }

/-- Modelled from the spec: `TransformerDataEncoder` (module
`transformer`, not in this snapshot), a "self-attention stack refining
the embedded data sequence"; it preserves the `(bs, data_len, dim)`
shape (source comments of both `fwd` methods). -/
structure TransformerDataEncoder where
  dim : Nat
deriving DecidableEq, Repr

/-- Modelled from the spec: applying the data encoder preserves the
latent shape and transforms the contents deterministically. -/
def TransformerDataEncoder.apply (enc : TransformerDataEncoder) (x : Tensor) : Tensor :=
  { shape := x.shape
    payload := 11 * x.payload + Int.ofNat enc.dim + 5 }

/-- Modelled from the spec: `TransformerSymbolEncoder` (module
`transformer`, not in this snapshot), a "self-attention stack over a
token sequence representing a symbolic equation description". -/
structure TransformerSymbolEncoder where
  dim : Nat
deriving DecidableEq, Repr

/-- Digest of an optional padding mask, used by the modelled modules
that receive one. -/
def maskPayload : Option Tensor → Int
  | none => 0
  | some t => 2 * t.payload + 1

/-- Modelled from the spec: the symbol encoder maps a token sequence
`(bs, symbol_len)` with an optional key-padding mask to a latent
sequence `(bs, symbol_len, dim)` (source comments of
`PROSE_1DPDE.fwd`). -/
def TransformerSymbolEncoder.apply (enc : TransformerSymbolEncoder)
    (symbol_input : Tensor) (src_key_padding_mask : Option Tensor) : Tensor :=
  { shape := [symbol_input.shape.headD 0, symbol_input.shape.getD 1 0, enc.dim]
    payload := 13 * symbol_input.payload + 17 * maskPayload src_key_padding_mask + 7 }

/-- Modelled from the spec: `TransformerFusion` (module `transformer`,
not in this snapshot), a block "merging data and symbol latent streams
with padding-mask handling". -/
structure TransformerFusion where
  dim : Nat
deriving DecidableEq, Repr

/-- Modelled from the spec: fusion concatenates the two latent streams
into `(bs, data_len + symbol_len, dim)` (source comments of
`PROSE_1DPDE.fwd`), and produces a fused key-padding mask of matching
length derived from the incoming masks (`none` when both are `none`). -/
def TransformerFusion.apply (fu : TransformerFusion) (x0 x1 : Tensor)
    (key_padding_mask0 key_padding_mask1 : Option Tensor) : Tensor × Option Tensor :=
  let fusedLen := x0.shape.getD 1 0 + x1.shape.getD 1 0
  let fused : Tensor :=
    { shape := [x0.shape.headD 0, fusedLen, fu.dim]
      payload := 19 * x0.payload + 23 * x1.payload
                 + 29 * maskPayload key_padding_mask0
                 + 31 * maskPayload key_padding_mask1 + 11 }
  let fused_mask : Option Tensor :=
    match key_padding_mask0, key_padding_mask1 with
    | none, none => none
    | m0, m1 =>
      some { shape := [x0.shape.headD 0, fusedLen]
             payload := 37 * maskPayload m0 + 41 * maskPayload m1 + 13 }
  (fused, fused_mask)

/-- Modelled from the spec: `DataOperatorDecoder` (module `transformer`,
not in this snapshot), a "cross-attention decoder producing
output-time-indexed query embeddings and decoding them against the
fused context into predicted field values". -/
structure DataOperatorDecoder where
  dim : Nat
deriving DecidableEq, Repr

/-- Modelled from the spec: `get_query_emb` builds one query embedding
per output time, `(bs, output_len, 1) -> (bs, query_len, dim)` with
`query_len = output_len` (source comments of both `fwd` methods). -/
def DataOperatorDecoder.get_query_emb (dec : DataOperatorDecoder)
    (output_times : Tensor) : Tensor :=
  { shape := [output_times.shape.headD 0, output_times.shape.getD 1 0, dec.dim]
    payload := 43 * output_times.payload + 17 }

/-- Modelled from the spec: the decoder cross-attends the query
embeddings against the fused context (with its key-padding mask) and
returns one latent vector per query, `(bs, query_len, dim)` (source
comments of both `fwd` methods). -/
def DataOperatorDecoder.apply (dec : DataOperatorDecoder)
    (src query_emb : Tensor) (src_key_padding_mask : Option Tensor) : Tensor :=
  { shape := [query_emb.shape.headD 0, query_emb.shape.getD 1 0, dec.dim]
    payload := 47 * src.payload + 53 * query_emb.payload
               + 59 * maskPayload src_key_padding_mask + 19 }

/-- The `PROSE_Fluids` wrapper (source lines 21-130): its `__init__`
builds an embedder, a data encoder and a data decoder; the symbol
encoder and fusion lines are commented out. -/
structure PROSE_Fluids where
  embedder : LinearEmbedder
  data_encoder : TransformerDataEncoder
  data_decoder : DataOperatorDecoder
deriving DecidableEq, Repr

/-- `PROSE_Fluids.fwd` (source lines 60-127), translated line by line.
The tuple unpacking `bs, input_len, x_num, _, data_dim =
data_input.size()` requires a rank-5 tensor and raises `ValueError`
otherwise.  The symbol arguments are accepted but unused (their uses are
commented out in the source); `fused` is the data encoding and
`fused_mask` is `None`.  Returns the result together with the ordered
list of sub-module stages invoked. -/
def PROSE_Fluids.fwd (m : PROSE_Fluids)
    (data_input input_times output_times symbol_input : Tensor)
    (symbol_padding_mask : Option Tensor) :
    Except PyError FwdResult × List Stage :=
  match data_input.shape with
  | [_bs, _input_len, _x_num, _, _data_dim] =>
    let data_input1 := m.embedder.encode data_input input_times
    let _data_len := data_input1.shape.getD 1 0
    let tr1 : List Stage := [Stage.embedderEncode]
    let data_encoded := m.data_encoder.apply data_input1
    let tr2 := tr1 ++ [Stage.dataEncoder]
    let fused := data_encoded
    let fused_mask : Option Tensor := none
    let query_emb := m.data_decoder.get_query_emb output_times
    let tr3 := tr2 ++ [Stage.getQueryEmb]
    let data_output := m.data_decoder.apply fused query_emb fused_mask
    let tr4 := tr3 ++ [Stage.dataDecoder]
    let data_output1 := m.embedder.decode data_output
    let tr5 := tr4 ++ [Stage.embedderDecode]
    let _unused := symbol_input
    let _unused1 := symbol_padding_mask
    (Except.ok (FwdResult.tensor data_output1), tr5)
  | _ => (Except.error (PyError.valueError "values to unpack from data_input.size"), [])

/-- `PROSE_Fluids.generate` (source lines 129-130): forwards all keyword
arguments to `fwd`. -/
def PROSE_Fluids.gen (m : PROSE_Fluids)
    (data_input input_times output_times symbol_input : Tensor)
    (symbol_padding_mask : Option Tensor) :
    Except PyError FwdResult × List Stage :=
  m.fwd data_input input_times output_times symbol_input symbol_padding_mask

/-- A `**kwargs` dictionary for a wrapper forward call: each field is
`some v` when the keyword was passed with value `v` and `none` when it
was absent.  `symbol_padding_mask` may be passed explicitly as Python
`None`, hence the nested option. -/
structure FwdKwargs where
  data_input : Option Tensor
  input_times : Option Tensor
  output_times : Option Tensor
  symbol_input : Option Tensor
  symbol_padding_mask : Option (Option Tensor)
deriving DecidableEq, Repr

/-- The required parameters of `fwd` that are missing from a kwargs
dictionary, in signature order (`symbol_padding_mask` has default
`None`, so it is never required). -/
def FwdKwargs.missingRequired (kw : FwdKwargs) : List String :=
  (if kw.data_input.isNone then ["data_input"] else [])
  ++ (if kw.input_times.isNone then ["input_times"] else [])
  ++ (if kw.output_times.isNone then ["output_times"] else [])
  ++ (if kw.symbol_input.isNone then ["symbol_input"] else [])

/-- Calling `PROSE_Fluids.fwd(**kwargs)`: the interpreter binds the
keyword arguments against the signature
`fwd(self, data_input, input_times, output_times, symbol_input,
symbol_padding_mask=None)`, raising `TypeError` when a required argument
is missing and substituting `None` for an absent
`symbol_padding_mask`. -/
def PROSE_Fluids.callFwd (m : PROSE_Fluids) (kw : FwdKwargs) :
    Except PyError FwdResult :=
  match kw.data_input, kw.input_times, kw.output_times, kw.symbol_input with
  | some d, some it, some ot, some s =>
    (m.fwd d it ot s (kw.symbol_padding_mask.getD none)).1
  | _, _, _, _ =>
    Except.error (PyError.typeError
      ("fwd() missing required arguments: " ++ String.intercalate ", " kw.missingRequired))

/-- Calling `PROSE_Fluids.generate(**kwargs)`: `generate` forwards its
kwargs to `fwd`, so binding happens at `fwd`. -/
def PROSE_Fluids.callGen (m : PROSE_Fluids) (kw : FwdKwargs) :
    Except PyError FwdResult :=
  m.callFwd kw

/-- `PROSE_Fluids.forward` (source lines 48-58): dispatch on the string
`mode`; `"fwd"` calls `self.fwd(**kwargs)`, `"generate"` calls
`self.generate(**kwargs)`, anything else raises
`Exception(f"Unknown mode: \x7bmode\x7d")`. -/
def PROSE_Fluids.forward (m : PROSE_Fluids) (mode : String) (kw : FwdKwargs) :
    Except PyError FwdResult :=
  if mode = "fwd" then m.callFwd kw
  else if mode = "generate" then m.callGen kw
  else Except.error (PyError.exception ("Unknown mode: " ++ mode))

/-- The `PROSE_1DPDE` wrapper (source lines 133-283): its `__init__`
builds an embedder, a data encoder, a symbol encoder, a fusion block and
a data decoder. -/
structure PROSE_1DPDE where
  embedder : LinearEmbedder_1DPDE
  data_encoder : TransformerDataEncoder
  symbol_encoder : TransformerSymbolEncoder
  fusion : TransformerFusion
  data_decoder : DataOperatorDecoder
deriving DecidableEq, Repr

/-- `PROSE_1DPDE.fwd` (source lines 208-280), translated line by line.
The tuple unpacking `bs, input_len, x_num, data_dim = data_input.size()`
requires a rank-4 tensor.  The symbol path is active: the symbol encoder
runs on `symbol_input` with the padding mask, fusion merges the two
latent streams, and the decoder consumes the fused context with the
fused mask.  The result is the dictionary `output` with keys
`data_embeded`, `data_encoded`, `symbol_encoded`, `fused`,
`data_output`, in insertion order.  Returns the result together with the
ordered list of sub-module stages invoked. -/
def PROSE_1DPDE.fwd (m : PROSE_1DPDE)
    (data_input input_times output_times symbol_input : Tensor)
    (symbol_padding_mask : Option Tensor) :
    Except PyError FwdResult × List Stage :=
  match data_input.shape with
  | [_bs, _input_len, _x_num, _data_dim] =>
    let data_input1 := m.embedder.encode data_input input_times
    let _data_len := data_input1.shape.getD 1 0
    let tr1 : List Stage := [Stage.embedderEncode]
    let data_encoded := m.data_encoder.apply data_input1
    let tr2 := tr1 ++ [Stage.dataEncoder]
    let symbol_encoded := m.symbol_encoder.apply symbol_input symbol_padding_mask
    let tr3 := tr2 ++ [Stage.symbolEncoder]
    let fusedPair := m.fusion.apply data_encoded symbol_encoded none symbol_padding_mask
    let fused := fusedPair.1
    let fused_mask := fusedPair.2
    let tr4 := tr3 ++ [Stage.fusionStage]
    let query_emb := m.data_decoder.get_query_emb output_times
    let tr5 := tr4 ++ [Stage.getQueryEmb]
    let data_output := m.data_decoder.apply fused query_emb fused_mask
    let tr6 := tr5 ++ [Stage.dataDecoder]
    let data_output1 := m.embedder.decode data_output
    let tr7 := tr6 ++ [Stage.embedderDecode]
    let output : List (String × Tensor) :=
      [("data_embeded", data_input1), ("data_encoded", data_encoded),
       ("symbol_encoded", symbol_encoded), ("fused", fused),
       ("data_output", data_output1)]
    (Except.ok (FwdResult.dict output), tr7)
  | _ => (Except.error (PyError.valueError "values to unpack from data_input.size"), [])

/-- `PROSE_1DPDE.generate` (source lines 282-283): forwards all keyword
arguments to `fwd`. -/
def PROSE_1DPDE.gen (m : PROSE_1DPDE)
    (data_input input_times output_times symbol_input : Tensor)
    (symbol_padding_mask : Option Tensor) :
    Except PyError FwdResult × List Stage :=
  m.fwd data_input input_times output_times symbol_input symbol_padding_mask

/-- Calling `PROSE_1DPDE.fwd(**kwargs)`, with the same binding rules as
for `PROSE_Fluids.callFwd` (the two signatures are identical). -/
def PROSE_1DPDE.callFwd (m : PROSE_1DPDE) (kw : FwdKwargs) :
    Except PyError FwdResult :=
  match kw.data_input, kw.input_times, kw.output_times, kw.symbol_input with
  | some d, some it, some ot, some s =>
    (m.fwd d it ot s (kw.symbol_padding_mask.getD none)).1
  | _, _, _, _ =>
    Except.error (PyError.typeError
      ("fwd() missing required arguments: " ++ String.intercalate ", " kw.missingRequired))

/-- Calling `PROSE_1DPDE.generate(**kwargs)`: forwards to `fwd`. -/
def PROSE_1DPDE.callGen (m : PROSE_1DPDE) (kw : FwdKwargs) :
    Except PyError FwdResult :=
  m.callFwd kw

/-- `PROSE_1DPDE.forward` (source lines 196-206): identical dispatch to
`PROSE_Fluids.forward`. -/
def PROSE_1DPDE.forward (m : PROSE_1DPDE) (mode : String) (kw : FwdKwargs) :
    Except PyError FwdResult :=
  if mode = "fwd" then m.callFwd kw
  else if mode = "generate" then m.callGen kw
  else Except.error (PyError.exception ("Unknown mode: " ++ mode))

/-- The output field tensor computed by `PROSE_Fluids.fwd` on a rank-5
input: the composition embed, encode, build queries, decode against the
(unfused) data encoding with no mask, inverse-embed. -/
def PROSE_Fluids.decodedOutput (m : PROSE_Fluids)
    (data_input input_times output_times : Tensor) : Tensor :=
  m.embedder.decode
    (m.data_decoder.apply
      (m.data_encoder.apply (m.embedder.encode data_input input_times))
      (m.data_decoder.get_query_emb output_times) none)

/-- The fused context and fused mask computed by `PROSE_1DPDE.fwd` on a
rank-4 input: fusion of the data encoding with the symbol encoding under
the symbol padding mask. -/
def PROSE_1DPDE.fusedCtx (m : PROSE_1DPDE)
    (data_input input_times symbol_input : Tensor)
    (symbol_padding_mask : Option Tensor) : Tensor × Option Tensor :=
  m.fusion.apply
    (m.data_encoder.apply (m.embedder.encode data_input input_times))
    (m.symbol_encoder.apply symbol_input symbol_padding_mask)
    none symbol_padding_mask

/-- The output field tensor computed by `PROSE_1DPDE.fwd` on a rank-4
input (the value stored under `"data_output"`). -/
def PROSE_1DPDE.decodedOutput (m : PROSE_1DPDE)
    (data_input input_times output_times symbol_input : Tensor)
    (symbol_padding_mask : Option Tensor) : Tensor :=
  m.embedder.decode
    (m.data_decoder.apply
      (m.fusedCtx data_input input_times symbol_input symbol_padding_mask).1
      (m.data_decoder.get_query_emb output_times)
      (m.fusedCtx data_input input_times symbol_input symbol_padding_mask).2)

theorem fluids_fwd_eq (m : PROSE_Fluids)
    (data_input input_times output_times symbol_input : Tensor)
    (symbol_padding_mask : Option Tensor)
    (bs input_len x_num x_num1 data_dim : Nat)
    (h : data_input.shape = [bs, input_len, x_num, x_num1, data_dim]) :
    m.fwd data_input input_times output_times symbol_input symbol_padding_mask
      = (Except.ok (FwdResult.tensor
            (m.decodedOutput data_input input_times output_times)),
         [Stage.embedderEncode, Stage.dataEncoder, Stage.getQueryEmb,
          Stage.dataDecoder, Stage.embedderDecode]) := by
  unfold PROSE_Fluids.fwd
  rw [h]
  rfl

theorem pde_fwd_eq (m : PROSE_1DPDE)
    (data_input input_times output_times symbol_input : Tensor)
    (symbol_padding_mask : Option Tensor)
    (bs input_len x_num data_dim : Nat)
    (h : data_input.shape = [bs, input_len, x_num, data_dim]) :
    m.fwd data_input input_times output_times symbol_input symbol_padding_mask
      = (Except.ok (FwdResult.dict
          [("data_embeded", m.embedder.encode data_input input_times),
           ("data_encoded",
             m.data_encoder.apply (m.embedder.encode data_input input_times)),
           ("symbol_encoded",
             m.symbol_encoder.apply symbol_input symbol_padding_mask),
           ("fused",
             (m.fusedCtx data_input input_times symbol_input symbol_padding_mask).1),
           ("data_output",
             m.decodedOutput data_input input_times output_times symbol_input
               symbol_padding_mask)]),
         [Stage.embedderEncode, Stage.dataEncoder, Stage.symbolEncoder,
          Stage.fusionStage, Stage.getQueryEmb, Stage.dataDecoder,
          Stage.embedderDecode]) := by
  unfold PROSE_1DPDE.fwd
  rw [h]
  rfl

/-- A concrete `PROSE_Fluids` instance: grid 2 x 2, one channel, two
patches per axis, hidden dimension 3. -/
def fluidsInst : PROSE_Fluids :=
  { embedder := { xNum := 2, dataDim := 1, patchNum := 2, dim := 3 }
    data_encoder := { dim := 3 }
    data_decoder := { dim := 3 } }

/-- A concrete `PROSE_1DPDE` instance: grid of 2 points, one channel,
two patches, hidden dimension 3. -/
def pdeInst : PROSE_1DPDE :=
  { embedder := { xNum := 2, dataDim := 1, patchNum := 2, dim := 3 }
    data_encoder := { dim := 3 }
    symbol_encoder := { dim := 3 }
    fusion := { dim := 3 }
    data_decoder := { dim := 3 } }

/-- A concrete rank-5 field input `(bs, input_len, x_num, x_num,
data_dim) = (1, 2, 2, 2, 1)`. -/
def tData5 : Tensor := { shape := [1, 2, 2, 2, 1], payload := 10 }

/-- A concrete rank-4 field input `(bs, input_len, x_num, data_dim) =
(1, 2, 2, 1)`. -/
def tData4 : Tensor := { shape := [1, 2, 2, 1], payload := 10 }

/-- Concrete input times `(1, 2, 1)`. -/
def tTimesIn : Tensor := { shape := [1, 2, 1], payload := 4 }

/-- Concrete output times `(1, 3, 1)`. -/
def tTimesOut : Tensor := { shape := [1, 3, 1], payload := 6 }

/-- A concrete symbol token sequence `(1, 2)`. -/
def tSymbol : Tensor := { shape := [1, 2], payload := 9 }

/-- An alternative symbol token sequence of the same shape. -/
def tSymbolAlt : Tensor := { shape := [1, 2], payload := 21 }

/-- A concrete symbol padding mask `(1, 2)`. -/
def tMask : Tensor := { shape := [1, 2], payload := 5 }

/-- C1: for both wrappers (`PROSE_Fluids` and `PROSE_1DPDE`) and every
set of keyword arguments, `forward` with `mode="fwd"` and `forward` with
`mode="generate"` on identical inputs return identical results, because
`generate` forwards all its arguments to `fwd`. -/
theorem c1_generate_aliases_fwd (m : PROSE_Fluids) (m1 : PROSE_1DPDE)
    (kw kw1 : FwdKwargs) :
    m.forward "fwd" kw = m.forward "generate" kw ∧
    m1.forward "fwd" kw1 = m1.forward "generate" kw1 := by
  constructor <;> rfl

/-- `PROSE_Fluids.fwd` never raises an explicit `Exception`: it either
returns a value or fails unpacking with a `ValueError`. -/
theorem fluids_fwd_ne_exception (m : PROSE_Fluids)
    (a b c d : Tensor) (p : Option Tensor) (msg : String) :
    (m.fwd a b c d p).1 ≠ Except.error (PyError.exception msg) := by
  unfold PROSE_Fluids.fwd
  split <;> simp

/-- Binding and running `PROSE_Fluids.fwd(**kwargs)` never raises an
explicit `Exception` (only `TypeError` or `ValueError`). -/
theorem fluids_callFwd_ne_exception (m : PROSE_Fluids)
    (kw : FwdKwargs) (msg : String) :
    m.callFwd kw ≠ Except.error (PyError.exception msg) := by
  unfold PROSE_Fluids.callFwd
  split
  · apply fluids_fwd_ne_exception
  · simp

/-- `PROSE_1DPDE.fwd` never raises an explicit `Exception`. -/
theorem pde_fwd_ne_exception (m : PROSE_1DPDE)
    (a b c d : Tensor) (p : Option Tensor) (msg : String) :
    (m.fwd a b c d p).1 ≠ Except.error (PyError.exception msg) := by
  unfold PROSE_1DPDE.fwd
  split <;> simp

/-- Binding and running `PROSE_1DPDE.fwd(**kwargs)` never raises an
explicit `Exception`. -/
theorem pde_callFwd_ne_exception (m : PROSE_1DPDE)
    (kw : FwdKwargs) (msg : String) :
    m.callFwd kw ≠ Except.error (PyError.exception msg) := by
  unfold PROSE_1DPDE.callFwd
  split
  · apply pde_fwd_ne_exception
  · simp

/-- C2: for both wrappers, `forward(mode, ...)` raises the explicit
exception with message `"Unknown mode: <mode>"` (the message carries the
offending mode string as its suffix) exactly when `mode` is neither
`"fwd"` nor `"generate"`; for the two recognized modes the dispatch
never produces that raise. -/
theorem c2_unknown_mode_raises_iff (m : PROSE_Fluids) (m1 : PROSE_1DPDE)
    (mode : String) (kw kw1 : FwdKwargs) :
    (m.forward mode kw = Except.error (PyError.exception ("Unknown mode: " ++ mode)) ∧
     m1.forward mode kw1 = Except.error (PyError.exception ("Unknown mode: " ++ mode)))
      ↔ (mode ≠ "fwd" ∧ mode ≠ "generate") := by
  constructor
  · rintro ⟨h, -⟩
    constructor
    · intro hm
      subst hm
      rw [PROSE_Fluids.forward, if_pos rfl] at h
      exact fluids_callFwd_ne_exception m kw _ h
    · intro hm
      subst hm
      rw [PROSE_Fluids.forward, if_neg (by decide), if_pos rfl] at h
      exact fluids_callFwd_ne_exception m kw _ h
  · rintro ⟨h1, h2⟩
    constructor
    · rw [PROSE_Fluids.forward, if_neg h1, if_neg h2]
    · rw [PROSE_1DPDE.forward, if_neg h1, if_neg h2]

/-- C6: the result of `PROSE_Fluids.fwd` is independent of the symbol
arguments: two calls agreeing on `data_input`, `input_times` and
`output_times` but with arbitrary `symbol_input` and
`symbol_padding_mask` return equal outputs (the symbol path is disabled
and the fused context is exactly the data encoding). -/
theorem c6_fluids_symbol_independent (m : PROSE_Fluids)
    (data_input input_times output_times s1 s2 : Tensor)
    (p1 p2 : Option Tensor) :
    m.fwd data_input input_times output_times s1 p1
      = m.fwd data_input input_times output_times s2 p2 := rfl

/-- C7: every `fwd` pass performs its stages in the fixed order: embed
(`embedder.encode`), data encoder, (1D variant only: symbol encoder then
fusion), `data_decoder.get_query_emb` on the output times, decode
(`data_decoder`), inverse-embed (`embedder.decode`). -/
theorem c7_stage_order (m : PROSE_Fluids) (m1 : PROSE_1DPDE)
    (d5 d4 it ot it1 ot1 s s1 : Tensor) (p p1 : Option Tensor)
    (bs input_len x_num x_num1 data_dim bs1 input_len1 x_num2 data_dim1 : Nat)
    (h : d5.shape = [bs, input_len, x_num, x_num1, data_dim])
    (h1 : d4.shape = [bs1, input_len1, x_num2, data_dim1]) :
    (m.fwd d5 it ot s p).2
      = [Stage.embedderEncode, Stage.dataEncoder, Stage.getQueryEmb,
         Stage.dataDecoder, Stage.embedderDecode] ∧
    (m1.fwd d4 it1 ot1 s1 p1).2
      = [Stage.embedderEncode, Stage.dataEncoder, Stage.symbolEncoder,
         Stage.fusionStage, Stage.getQueryEmb, Stage.dataDecoder,
         Stage.embedderDecode] := by
  rw [fluids_fwd_eq m d5 it ot s p bs input_len x_num x_num1 data_dim h,
      pde_fwd_eq m1 d4 it1 ot1 s1 p1 bs1 input_len1 x_num2 data_dim1 h1]
  exact ⟨rfl, rfl⟩

/-- Witness for C7: concrete instances and inputs realize the stage
orders. -/
theorem c7_stage_order_witness :
    (fluidsInst.fwd tData5 tTimesIn tTimesOut tSymbol none).2
      = [Stage.embedderEncode, Stage.dataEncoder, Stage.getQueryEmb,
         Stage.dataDecoder, Stage.embedderDecode] ∧
    (pdeInst.fwd tData4 tTimesIn tTimesOut tSymbol none).2
      = [Stage.embedderEncode, Stage.dataEncoder, Stage.symbolEncoder,
         Stage.fusionStage, Stage.getQueryEmb, Stage.dataDecoder,
         Stage.embedderDecode] :=
  c7_stage_order fluidsInst pdeInst tData5 tData4 tTimesIn tTimesOut tTimesIn
    tTimesOut tSymbol tSymbol none none 1 2 2 2 1 1 2 2 1 rfl rfl

/-- C3: for inputs `data_input` of shape `(batch, input_len, grid...,
channel)` matching the model's grid and channel configuration and
`output_times` of shape `(batch, output_len, 1)`, the output field
tensor returned by `fwd` has shape `(batch, output_len, grid...,
channel)`: batch, grid and channel dimensions are preserved and the time
dimension becomes `output_len` (for `PROSE_1DPDE` the field tensor is
the `"data_output"` entry of the returned dictionary). -/
theorem c3_output_shape (m : PROSE_Fluids) (m1 : PROSE_1DPDE)
    (d5 d4 it it1 ot ot1 s s1 : Tensor) (p p1 : Option Tensor)
    (bs input_len output_len bs1 input_len1 output_len1 : Nat)
    (h : d5.shape = [bs, input_len, m.embedder.xNum, m.embedder.xNum, m.embedder.dataDim])
    (ho : ot.shape = [bs, output_len, 1])
    (h1 : d4.shape = [bs1, input_len1, m1.embedder.xNum, m1.embedder.dataDim])
    (ho1 : ot1.shape = [bs1, output_len1, 1]) :
    (∃ t, (m.fwd d5 it ot s p).1 = Except.ok (FwdResult.tensor t) ∧
       t.shape = bs :: output_len :: d5.shape.drop 2) ∧
    (∃ dct t1, (m1.fwd d4 it1 ot1 s1 p1).1 = Except.ok (FwdResult.dict dct) ∧
       dct.lookup "data_output" = some t1 ∧
       t1.shape = bs1 :: output_len1 :: d4.shape.drop 2) := by
  have e1 := fluids_fwd_eq m d5 it ot s p bs input_len
    m.embedder.xNum m.embedder.xNum m.embedder.dataDim h
  have e2 := pde_fwd_eq m1 d4 it1 ot1 s1 p1 bs1 input_len1
    m1.embedder.xNum m1.embedder.dataDim h1
  constructor
  · refine ⟨m.decodedOutput d5 it ot, by rw [e1], ?_⟩
    simp [PROSE_Fluids.decodedOutput, LinearEmbedder.decode,
      DataOperatorDecoder.apply, DataOperatorDecoder.get_query_emb,
      TransformerDataEncoder.apply, LinearEmbedder.encode, h, ho, List.getD]
  · refine ⟨[("data_embeded", m1.embedder.encode d4 it1),
             ("data_encoded", m1.data_encoder.apply (m1.embedder.encode d4 it1)),
             ("symbol_encoded", m1.symbol_encoder.apply s1 p1),
             ("fused", (m1.fusedCtx d4 it1 s1 p1).1),
             ("data_output", m1.decodedOutput d4 it1 ot1 s1 p1)],
            m1.decodedOutput d4 it1 ot1 s1 p1, by rw [e2], rfl, ?_⟩
    simp [PROSE_1DPDE.decodedOutput, LinearEmbedder_1DPDE.decode,
      DataOperatorDecoder.apply, DataOperatorDecoder.get_query_emb,
      PROSE_1DPDE.fusedCtx, TransformerFusion.apply,
      TransformerDataEncoder.apply, TransformerSymbolEncoder.apply,
      LinearEmbedder_1DPDE.encode, h1, ho1, List.getD]

/-- Witness for C3: the concrete instances and inputs (batch 1, 2 input
steps, 3 output steps, grid 2, channel 1) realize the shape law. -/
theorem c3_output_shape_witness :
    (∃ t, (fluidsInst.fwd tData5 tTimesIn tTimesOut tSymbol none).1
        = Except.ok (FwdResult.tensor t) ∧
       t.shape = 1 :: 3 :: tData5.shape.drop 2) ∧
    (∃ dct t1, (pdeInst.fwd tData4 tTimesIn tTimesOut tSymbol none).1
        = Except.ok (FwdResult.dict dct) ∧
       dct.lookup "data_output" = some t1 ∧
       t1.shape = 1 :: 3 :: tData4.shape.drop 2) :=
  c3_output_shape fluidsInst pdeInst tData5 tData4 tTimesIn tTimesIn
    tTimesOut tTimesOut tSymbol tSymbol none none 1 2 3 1 2 3 rfl rfl rfl rfl

/-- C4: `PROSE_1DPDE.fwd` always returns a dictionary with exactly the
keys `data_embeded`, `data_encoded`, `symbol_encoded`, `fused`,
`data_output` (in insertion order), where `data_output` holds the
decoded field tensor; it never returns the field tensor directly, unlike
`PROSE_Fluids.fwd` which returns the tensor itself. -/
theorem c4_pde_dict_result (m1 : PROSE_1DPDE) (m : PROSE_Fluids)
    (d4 d5 it it1 ot ot1 s s1 : Tensor) (p p1 : Option Tensor)
    (bs input_len x_num data_dim bs1 input_len1 x_num1 x_num2 data_dim1 : Nat)
    (h : d4.shape = [bs, input_len, x_num, data_dim])
    (h1 : d5.shape = [bs1, input_len1, x_num1, x_num2, data_dim1]) :
    (∃ dct, (m1.fwd d4 it ot s p).1 = Except.ok (FwdResult.dict dct) ∧
       dct.map Prod.fst
         = ["data_embeded", "data_encoded", "symbol_encoded", "fused",
            "data_output"] ∧
       dct.lookup "data_output" = some (m1.decodedOutput d4 it ot s p) ∧
       ∀ t, (m1.fwd d4 it ot s p).1 ≠ Except.ok (FwdResult.tensor t)) ∧
    (∃ t, (m.fwd d5 it1 ot1 s1 p1).1 = Except.ok (FwdResult.tensor t)) := by
  have e1 := pde_fwd_eq m1 d4 it ot s p bs input_len x_num data_dim h
  have e2 := fluids_fwd_eq m d5 it1 ot1 s1 p1 bs1 input_len1 x_num1
    x_num2 data_dim1 h1
  constructor
  · refine ⟨[("data_embeded", m1.embedder.encode d4 it),
             ("data_encoded", m1.data_encoder.apply (m1.embedder.encode d4 it)),
             ("symbol_encoded", m1.symbol_encoder.apply s p),
             ("fused", (m1.fusedCtx d4 it s p).1),
             ("data_output", m1.decodedOutput d4 it ot s p)],
            by rw [e1], rfl, rfl, ?_⟩
    intro t hc
    rw [e1] at hc
    simp at hc
  · exact ⟨m.decodedOutput d5 it1 ot1, by rw [e2]⟩

/-- Witness for C4 at the concrete instances and inputs. -/
theorem c4_pde_dict_result_witness :
    (∃ dct, (pdeInst.fwd tData4 tTimesIn tTimesOut tSymbol none).1
        = Except.ok (FwdResult.dict dct) ∧
       dct.map Prod.fst
         = ["data_embeded", "data_encoded", "symbol_encoded", "fused",
            "data_output"] ∧
       dct.lookup "data_output"
         = some (pdeInst.decodedOutput tData4 tTimesIn tTimesOut tSymbol none) ∧
       ∀ t, (pdeInst.fwd tData4 tTimesIn tTimesOut tSymbol none).1
         ≠ Except.ok (FwdResult.tensor t)) ∧
    (∃ t, (fluidsInst.fwd tData5 tTimesIn tTimesOut tSymbol none).1
        = Except.ok (FwdResult.tensor t)) :=
  c4_pde_dict_result pdeInst fluidsInst tData4 tData5 tTimesIn tTimesIn
    tTimesOut tTimesOut tSymbol tSymbol none none 1 2 2 1 1 2 2 2 1 rfl rfl

/-- Whether a forward result is the bare output tensor (rather than a
dictionary or an error). -/
def resultIsTensor : Except PyError FwdResult → Bool
  | Except.ok (FwdResult.tensor _) => true
  | _ => false

/-- The sequence length (dimension 1) of the entry `key` of a dictionary
result, or `0` when the result is not a dictionary or lacks the key. -/
def dictEntryLen (r : Except PyError FwdResult) (key : String) : Nat :=
  match r with
  | Except.ok (FwdResult.dict d) =>
    match d.lookup key with
    | some t => t.shape.getD 1 0
    | none => 0
  | _ => 0

/-- `PROSE_Fluids.fwd` on a rank-4 input fails the five-way unpacking of
`data_input.size()`. -/
theorem PROSE_Fluids.fwd_rank4 (m : PROSE_Fluids)
    (d it ot s : Tensor) (p : Option Tensor) (a b c e : Nat)
    (h : d.shape = [a, b, c, e]) :
    m.fwd d it ot s p
      = (Except.error (PyError.valueError "values to unpack from data_input.size"),
         []) := by
  unfold PROSE_Fluids.fwd
  rw [h]

/-- `PROSE_1DPDE.fwd` on a rank-5 input fails the four-way unpacking of
`data_input.size()`. -/
theorem PROSE_1DPDE.fwd_rank5 (m : PROSE_1DPDE)
    (d it ot s : Tensor) (p : Option Tensor) (a b c e f : Nat)
    (h : d.shape = [a, b, c, e, f]) :
    m.fwd d it ot s p
      = (Except.error (PyError.valueError "values to unpack from data_input.size"),
         []) := by
  unfold PROSE_1DPDE.fwd
  rw [h]

/-- Counterexample to C5: on corresponding valid inputs the two variants
do not return results of the same form — the 2D variant returns the bare
tensor while the 1D variant returns a dictionary — and each variant
rejects the other's input rank, so the variants do not compute the same
way in every respect other than the symbol path. -/
theorem c5_counterexample :
    resultIsTensor (fluidsInst.fwd tData5 tTimesIn tTimesOut tSymbol none).1
      = true ∧
    resultIsTensor (pdeInst.fwd tData4 tTimesIn tTimesOut tSymbol none).1
      = false ∧
    (fluidsInst.fwd tData4 tTimesIn tTimesOut tSymbol none).1
      = Except.error (PyError.valueError "values to unpack from data_input.size") ∧
    (pdeInst.fwd tData5 tTimesIn tTimesOut tSymbol none).1
      = Except.error (PyError.valueError "values to unpack from data_input.size") :=
  ⟨rfl, rfl, rfl, rfl⟩

/-- C5 (amended): the two variants share the pipeline skeleton — the 1D
stage trace with the symbol-encoder and fusion stages removed is exactly
the 2D stage trace, so they differ in the symbol path being active — but
additionally they differ in accepted input rank (rank-5 2D fields versus
rank-4 1D fields) and in the form of the returned result (bare tensor
versus dictionary of intermediates). -/
theorem c5_variants_relationship (m : PROSE_Fluids) (m1 : PROSE_1DPDE)
    (d5 d4 it it1 ot ot1 s s1 : Tensor) (p p1 : Option Tensor)
    (bs input_len x_num x_num1 data_dim bs1 input_len1 x_num2 data_dim1 : Nat)
    (h : d5.shape = [bs, input_len, x_num, x_num1, data_dim])
    (h1 : d4.shape = [bs1, input_len1, x_num2, data_dim1]) :
    ((m1.fwd d4 it1 ot1 s1 p1).2.filter
        (fun st => st != Stage.symbolEncoder && st != Stage.fusionStage))
      = (m.fwd d5 it ot s p).2 ∧
    resultIsTensor (m.fwd d5 it ot s p).1 = true ∧
    resultIsTensor (m1.fwd d4 it1 ot1 s1 p1).1 = false ∧
    (m.fwd d4 it ot s p).1
      = Except.error (PyError.valueError "values to unpack from data_input.size") ∧
    (m1.fwd d5 it1 ot1 s1 p1).1
      = Except.error (PyError.valueError "values to unpack from data_input.size") := by
  have e1 := fluids_fwd_eq m d5 it ot s p bs input_len x_num x_num1
    data_dim h
  have e2 := pde_fwd_eq m1 d4 it1 ot1 s1 p1 bs1 input_len1 x_num2
    data_dim1 h1
  refine ⟨?_, ?_, ?_, ?_, ?_⟩
  · rw [e1, e2]
    rfl
  · rw [e1]
    rfl
  · rw [e2]
    rfl
  · rw [PROSE_Fluids.fwd_rank4 m d4 it ot s p bs1 input_len1 x_num2 data_dim1 h1]
  · rw [PROSE_1DPDE.fwd_rank5 m1 d5 it1 ot1 s1 p1 bs input_len x_num x_num1
        data_dim h]

/-- Witness for the amended C5 at the concrete instances and inputs. -/
theorem c5_variants_relationship_witness :
    ((pdeInst.fwd tData4 tTimesIn tTimesOut tSymbol none).2.filter
        (fun st => st != Stage.symbolEncoder && st != Stage.fusionStage))
      = (fluidsInst.fwd tData5 tTimesIn tTimesOut tSymbol none).2 ∧
    resultIsTensor (fluidsInst.fwd tData5 tTimesIn tTimesOut tSymbol none).1
      = true ∧
    resultIsTensor (pdeInst.fwd tData4 tTimesIn tTimesOut tSymbol none).1
      = false ∧
    (fluidsInst.fwd tData4 tTimesIn tTimesOut tSymbol none).1
      = Except.error (PyError.valueError "values to unpack from data_input.size") ∧
    (pdeInst.fwd tData5 tTimesIn tTimesOut tSymbol none).1
      = Except.error (PyError.valueError "values to unpack from data_input.size") :=
  c5_variants_relationship fluidsInst pdeInst tData5 tData4 tTimesIn tTimesIn
    tTimesOut tTimesOut tSymbol tSymbol none none 1 2 2 2 1 1 2 2 1 rfl rfl

/-- Counterexample to C8: in the 1D variant the decoder does not consume
a context of length `input_len * patch_num`: its `src` is the fused
stream (the `"fused"` dictionary entry), whose length is
`data_len + symbol_len`.  Concretely, with 2 input steps, 2 patches and
2 symbol tokens the decoder context has length 6 while
`input_len * patch_num = 4`. -/
theorem c8_counterexample :
    tData4.shape.getD 1 0 * pdeInst.embedder.patchNum = 4 ∧
    dictEntryLen (pdeInst.fwd tData4 tTimesIn tTimesOut tSymbol none).1 "fused"
      = 6 ∧
    dictEntryLen (pdeInst.fwd tData4 tTimesIn tTimesOut tSymbol none).1 "fused"
      ≠ tData4.shape.getD 1 0 * pdeInst.embedder.patchNum :=
  ⟨rfl, rfl, by decide⟩

/-- C8 (amended): the data latent length `data_len` produced by the
embedder and consumed by the data encoder is
`input_len * patch_num * patch_num` in the 2D variant and
`input_len * patch_num` in the 1D variant; the 2D decoder consumes a
context of exactly this length (the fused context is the data encoding),
while the 1D decoder consumes the fused context of length
`data_len + symbol_len`. -/
theorem c8_data_len (m : PROSE_Fluids) (m1 : PROSE_1DPDE)
    (d5 d4 it it1 ot1 s1 : Tensor) (p1 : Option Tensor)
    (bs input_len x_num x_num1 data_dim
     bs1 input_len1 x_num2 data_dim1 symbol_len : Nat)
    (h : d5.shape = [bs, input_len, x_num, x_num1, data_dim])
    (h1 : d4.shape = [bs1, input_len1, x_num2, data_dim1])
    (hs : s1.shape = [bs1, symbol_len]) :
    (m.embedder.encode d5 it).shape.getD 1 0
      = input_len * m.embedder.patchNum * m.embedder.patchNum ∧
    (m.data_encoder.apply (m.embedder.encode d5 it)).shape.getD 1 0
      = input_len * m.embedder.patchNum * m.embedder.patchNum ∧
    dictEntryLen (m1.fwd d4 it1 ot1 s1 p1).1 "data_embeded"
      = input_len1 * m1.embedder.patchNum ∧
    dictEntryLen (m1.fwd d4 it1 ot1 s1 p1).1 "fused"
      = input_len1 * m1.embedder.patchNum + symbol_len := by
  have e2 := pde_fwd_eq m1 d4 it1 ot1 s1 p1 bs1 input_len1 x_num2
    data_dim1 h1
  refine ⟨?_, ?_, ?_, ?_⟩
  · simp [LinearEmbedder.encode, h, List.getD]
  · simp [TransformerDataEncoder.apply, LinearEmbedder.encode, h, List.getD]
  · rw [e2]
    simp [dictEntryLen, List.lookup, LinearEmbedder_1DPDE.encode, h1, List.getD]
  · rw [e2]
    simp [dictEntryLen, List.lookup, PROSE_1DPDE.fusedCtx,
      TransformerFusion.apply, TransformerDataEncoder.apply,
      TransformerSymbolEncoder.apply, LinearEmbedder_1DPDE.encode, h1, hs,
      List.getD]

/-- Witness for the amended C8 at the concrete instances: latent lengths
8 = 2*2*2 for the 2D variant, 4 = 2*2 and fused length 6 = 4+2 for the
1D variant. -/
theorem c8_data_len_witness :
    (fluidsInst.embedder.encode tData5 tTimesIn).shape.getD 1 0
      = 2 * fluidsInst.embedder.patchNum * fluidsInst.embedder.patchNum ∧
    (fluidsInst.data_encoder.apply
        (fluidsInst.embedder.encode tData5 tTimesIn)).shape.getD 1 0
      = 2 * fluidsInst.embedder.patchNum * fluidsInst.embedder.patchNum ∧
    dictEntryLen (pdeInst.fwd tData4 tTimesIn tTimesOut tSymbol none).1
        "data_embeded"
      = 2 * pdeInst.embedder.patchNum ∧
    dictEntryLen (pdeInst.fwd tData4 tTimesIn tTimesOut tSymbol none).1 "fused"
      = 2 * pdeInst.embedder.patchNum + 2 :=
  c8_data_len fluidsInst pdeInst tData5 tData4 tTimesIn tTimesIn tTimesOut
    tSymbol none 1 2 2 2 1 1 2 2 1 2 rfl rfl rfl

/-- The documented convention for `symbol_padding_mask` (docstrings of
both `fwd` methods): a supplied mask is a `(bs, symbol_len)` tensor over
the symbol token sequence, with `True` marking padded elements. -/
def maskMatchesSymbols (symbol_input mask : Tensor) : Prop :=
  mask.shape = symbol_input.shape

/-- C9: in both wrappers `symbol_padding_mask` is optional: a call that
omits it behaves exactly like a call passing `None` explicitly (no
positions treated as padded), and a mask conforming to the documented
convention has the same token length (and batch) as the symbol token
sequence. -/
theorem c9_mask_optional (m : PROSE_Fluids) (m1 : PROSE_1DPDE)
    (kw kw1 : FwdKwargs)
    (hk : kw.symbol_padding_mask = none)
    (hk1 : kw1.symbol_padding_mask = none) :
    m.callFwd kw = m.callFwd { kw with symbol_padding_mask := some none } ∧
    m1.callFwd kw1 = m1.callFwd { kw1 with symbol_padding_mask := some none } ∧
    (∀ sym mask : Tensor, maskMatchesSymbols sym mask →
       mask.shape.getD 1 0 = sym.shape.getD 1 0 ∧
       mask.shape.headD 0 = sym.shape.headD 0) := by
  refine ⟨?_, ?_, ?_⟩
  · rcases kw with ⟨di, ti, tou, si, pm⟩
    have hpm : pm = none := hk
    subst hpm
    rfl
  · rcases kw1 with ⟨di, ti, tou, si, pm⟩
    have hpm : pm = none := hk1
    subst hpm
    rfl
  · intro sym mask hm
    unfold maskMatchesSymbols at hm
    rw [hm]
    exact ⟨rfl, rfl⟩

/-- A kwargs dictionary with all required arguments but no
`symbol_padding_mask`. -/
def kwNoMaskF : FwdKwargs :=
  { data_input := some tData5, input_times := some tTimesIn,
    output_times := some tTimesOut, symbol_input := some tSymbol,
    symbol_padding_mask := none }

/-- A kwargs dictionary for the 1D wrapper with all required arguments
but no `symbol_padding_mask`. -/
def kwNoMaskP : FwdKwargs :=
  { data_input := some tData4, input_times := some tTimesIn,
    output_times := some tTimesOut, symbol_input := some tSymbol,
    symbol_padding_mask := none }

/-- Witness for C9 at concrete kwargs dictionaries omitting the mask. -/
theorem c9_mask_optional_witness :
    fluidsInst.callFwd kwNoMaskF
      = fluidsInst.callFwd { kwNoMaskF with symbol_padding_mask := some none } ∧
    pdeInst.callFwd kwNoMaskP
      = pdeInst.callFwd { kwNoMaskP with symbol_padding_mask := some none } ∧
    (∀ sym mask : Tensor, maskMatchesSymbols sym mask →
       mask.shape.getD 1 0 = sym.shape.getD 1 0 ∧
       mask.shape.headD 0 = sym.shape.headD 0) :=
  c9_mask_optional fluidsInst pdeInst kwNoMaskF kwNoMaskP rfl rfl

/-- C10: calling `PROSE_Fluids.fwd` (directly or through `forward` in
either recognized mode) without a `symbol_input` keyword is an error:
`symbol_input` is a required parameter with no default, even though the
2D variant never reads it. -/
theorem c10_symbol_input_required (m : PROSE_Fluids) (kw : FwdKwargs)
    (d it ot : Tensor)
    (hd : kw.data_input = some d) (hit : kw.input_times = some it)
    (hot : kw.output_times = some ot) (hs : kw.symbol_input = none) :
    m.callFwd kw
      = Except.error (PyError.typeError
          "fwd() missing required arguments: symbol_input") ∧
    m.forward "fwd" kw
      = Except.error (PyError.typeError
          "fwd() missing required arguments: symbol_input") ∧
    m.forward "generate" kw
      = Except.error (PyError.typeError
          "fwd() missing required arguments: symbol_input") := by
  rcases kw with ⟨di, ti, tou, si, pm⟩
  have h1 : di = some d := hd
  have h2 : ti = some it := hit
  have h3 : tou = some ot := hot
  have h4 : si = none := hs
  subst h1
  subst h2
  subst h3
  subst h4
  exact ⟨rfl, rfl, rfl⟩

/-- A kwargs dictionary that omits `symbol_input` (all other required
arguments present). -/
def kwMissingSymbol : FwdKwargs :=
  { data_input := some tData5, input_times := some tTimesIn,
    output_times := some tTimesOut, symbol_input := none,
    symbol_padding_mask := none }

/-- Witness for C10 at a concrete kwargs dictionary lacking
`symbol_input`. -/
theorem c10_symbol_input_required_witness :
    fluidsInst.callFwd kwMissingSymbol
      = Except.error (PyError.typeError
          "fwd() missing required arguments: symbol_input") ∧
    fluidsInst.forward "fwd" kwMissingSymbol
      = Except.error (PyError.typeError
          "fwd() missing required arguments: symbol_input") ∧
    fluidsInst.forward "generate" kwMissingSymbol
      = Except.error (PyError.typeError
          "fwd() missing required arguments: symbol_input") :=
  c10_symbol_input_required fluidsInst kwMissingSymbol tData5 tTimesIn
    tTimesOut rfl rfl rfl rfl
